import Mathlib

/-!
Shallow embedding of the retrieval-augmented customer-support system:
the Knowledge Base Manager (src/utils/knowledge_base.py) and the
Conversation Agent (src/models/ai_agent.py).

External collaborators (file system and format-specific loaders, the
text splitter, the vector store, the language-model executor) are
passed in explicitly; fallible calls are modelled with `Except` or an
`Option String` failure slot, mirroring the try/except structure of the
Python source.
-/

/-- Model of a langchain document record: page content plus its source
metadata, the unit produced by the loaders and consumed by the splitter
and the vector store. -/
structure Document where
  page_content : String
  source : String
  deriving DecidableEq

/-- Model of the file system together with the format-specific loaders
(TextLoader, PyPDFLoader, CSVLoader, UnstructuredMarkdownLoader): a
path-existence test (os.path.exists) and a loading operation
(loader.load()) that either yields document records or raises. -/
structure FileSystem where
  pathExists : String → Bool
  parse : String → Except String (List Document)

/-- Suffix of a character list starting at its last dot, or `[]` when it
holds no dot. -/
def suffixFromLastDot : List Char → List Char
  | [] => []
  | c :: rest =>
    let t := suffixFromLastDot rest
    if t.isEmpty then (if c = '.' then c :: rest else []) else t

/-- Model of the extension component of os.path.splitext: the basename
is the part after the last path separator; leading dots of the basename
do not begin an extension; otherwise the extension starts at the last
dot of the basename. -/
def splitextExt (path : String) : String :=
  let base := path.toList.foldl (fun acc c => if c = '/' then [] else acc ++ [c]) []
  let stripped := base.dropWhile (fun c => c = '.')
  String.mk (suffixFromLastDot stripped)

/-- Model of the lower() call applied to the extension: lowercase each
character (the extensions compared against are ASCII). -/
def strToLower (s : String) : String :=
  String.mk (s.toList.map Char.toLower)

/-- State of the persistent Chroma collection backing the vector store:
the sequence of stored chunks (each with its embedding, which this
embedding leaves implicit since every stored chunk has exactly one). -/
structure KBState where
  storedChunks : List Document
  deriving DecidableEq

/-- Insert a document into a list kept in descending order of score:
part of the model of the k-nearest-neighbor query of the vector store. -/
def insertRanked (score : Document → Nat) (d : Document) : List Document → List Document
  | [] => [d]
  | e :: es => if score e ≤ score d then d :: e :: es else e :: insertRanked score d es

/-- Order the stored documents by descending similarity score: model of
the ranking performed by the external vector index for a query. -/
def rankDocs (score : Document → Nat) : List Document → List Document
  | [] => []
  | d :: ds => insertRanked score d (rankDocs score ds)

/-- Model of Chroma similarity_search: rank the stored chunks against
the query in the embedding space (abstracted as a score function) and
return the top k, or raise when the store fails (the `failure` slot). -/
def similarity_search (score : String → Document → Nat) (failure : Option String)
    (st : KBState) (query : String) (k : Nat) : Except String (List Document) :=
  match failure with
  | some e => Except.error e
  | none => Except.ok ((rankDocs (score query) st.storedChunks).take k)

namespace KnowledgeBaseManager

/-- Embedding of KnowledgeBaseManager.load_document: dispatch on the
lowercased extension from os.path.splitext; an unsupported extension
raises ValueError inside the try block; every exception (unsupported
extension, loader failure) is caught and yields the empty list. -/
def load_document (fs : FileSystem) (file_path : String) : List Document :=
  let file_extension := strToLower (splitextExt file_path)
  if file_extension = ".txt" ∨ file_extension = ".pdf" ∨
      file_extension = ".csv" ∨ file_extension = ".md" then
    match fs.parse file_path with
    | Except.ok documents => documents
    | Except.error _ => []
  else
    []

/-- Embedding of KnowledgeBaseManager.process_documents: apply the text
splitter to the documents; any exception is caught and yields the empty
list. The splitter is passed in as a fallible operation. -/
def process_documents (split : List Document → Except String (List Document))
    (documents : List Document) : List Document :=
  match split documents with
  | Except.ok chunks => chunks
  | Except.error _ => []

/-- Chunk-accumulation loop of KnowledgeBaseManager.add_documents: for
each path in order, skip it (with a logged warning) when it does not
exist, otherwise load it and, when documents were produced, split them
and append the chunks. -/
def collect_chunks (fs : FileSystem) (split : List Document → Except String (List Document)) :
    List String → List Document
  | [] => []
  | file_path :: rest =>
    let tail := collect_chunks fs split rest
    if fs.pathExists file_path then
      let documents := load_document fs file_path
      if documents = [] then tail
      else process_documents split documents ++ tail
    else tail

/-- Embedding of KnowledgeBaseManager.add_documents: accumulate chunks
over the batch; when the accumulated list is non-empty, add it to the
vector store and persist (storeOk says whether those external calls
succeed; on their failure the outer except returns false), returning
true; when no chunks were produced, return false. -/
def add_documents (fs : FileSystem) (split : List Document → Except String (List Document))
    (storeOk : Bool) (st : KBState) (file_paths : List String) : Bool × KBState :=
  let all_chunks := collect_chunks fs split file_paths
  if all_chunks = [] then (false, st)
  else if storeOk then (true, ⟨st.storedChunks ++ all_chunks⟩)
  else (false, st)

/-- Embedding of KnowledgeBaseManager.search: run similarity_search
with the query and k; on success return the page content of each
result; on any exception return the empty list. -/
def search (score : String → Document → Nat) (failure : Option String)
    (st : KBState) (query : String) (k : Nat) : List String :=
  match similarity_search score failure st query k with
  | Except.ok results => results.map (fun d => d.page_content)
  | Except.error _ => []

/-- Embedding of KnowledgeBaseManager.get_collection_info: the count of
the collection together with the persistence directory; on any failure
(collection absent) the count reported is 0. -/
def get_collection_info (hasCollection : Bool) (persist_directory : String)
    (st : KBState) : Nat × String :=
  if hasCollection then (st.storedChunks.length, persist_directory)
  else (0, persist_directory)

/-- Embedding of KnowledgeBaseManager.clear_knowledge_base: reset the
Chroma client, emptying the collection, and return true; when the reset
call raises, the exception is caught and false is returned with the
state unchanged. -/
def clear_knowledge_base (resetOk : Bool) (st : KBState) : Bool × KBState :=
  if resetOk then (true, ⟨[]⟩) else (false, st)

/-- Fixed-size window pass over a character list: emit the whole rest
when it fits inside one chunk, otherwise emit the first chunkSize
characters and slide forward by step characters. The fuel argument
bounds the recursion and is instantiated with the text length, which
suffices whenever step is positive. -/
def windowChunks (chunkSize step : Nat) : Nat → List Char → List (List Char)
  | 0, cs => [cs]
  | Nat.succ fuel, cs =>
    if cs.length ≤ chunkSize then [cs]
    else cs.take chunkSize :: windowChunks chunkSize step fuel (cs.drop step)

/-- Modelled from the spec: the chunking policy of the text splitter
configured in KnowledgeBaseManager (an external collaborator whose body
is not in this repository) — a fixed window length with a fixed overlap
between consecutive windows, deterministic in the input text; empty
text yields no chunks. -/
def split_text (chunkSize overlap : Nat) (text : String) : List String :=
  if text.toList = [] then []
  else (windowChunks chunkSize (chunkSize - overlap) text.toList.length text.toList).map String.mk

/-- Model of text_splitter.split_documents with the configured
chunk_size of 500 and chunk_overlap of 100: each document's page
content is split into windows, every window keeping the source
metadata of its document. -/
def split_documents (documents : List Document) : List Document :=
  (documents.map (fun d =>
    (split_text 500 100 d.page_content).map (fun t => Document.mk t d.source))).flatten

end KnowledgeBaseManager

/-- Model of a langchain chat message held in ConversationBufferMemory:
tagged as user-originated (HumanMessage) or agent-originated
(AIMessage), with text content. Session Memory is a list of these. -/
inductive Message where
  | user (content : String) : Message
  | ai (content : String) : Message
  deriving DecidableEq

namespace CustomerSupportAgent

/-- Embedding of the search_knowledge_base tool body: query the
knowledge base with k = 2; a non-empty result list is rendered as a
found-information header followed by the chunks joined by blank lines;
an empty result list yields the sentinel string. (The tool's own except
branch is unreachable through this call because
KnowledgeBaseManager.search already catches every exception.) -/
def search_knowledge_base (score : String → Document → Nat) (failure : Option String)
    (st : KBState) (query : String) : String :=
  let results := KnowledgeBaseManager.search score failure st query 2
  if results = [] then
    "No relevant information found in the knowledge base."
  else
    "Found relevant information:\n" ++ String.intercalate "\n\n" results

/-- Model of the Python format spec 04d applied to the non-negative
values it receives here: decimal digits left-padded with zeros to width
four. -/
def format04d (n : Int) : String :=
  let s := toString n.toNat
  String.mk (List.replicate (4 - s.length) '0') ++ s

/-- Ticket identifier minted by the create_support_ticket tool: the
process hash of the issue text, reduced modulo 10000 (Python % on a
positive modulus is the Euclidean remainder, as Int.emod is), rendered
with the 04d format behind the TKT- tag. The hash function of the
running process is passed in explicitly. -/
def ticket_id (hash : String → Int) (issue : String) : String :=
  "TKT-" ++ format04d (hash issue % 10000)

/-- Embedding of the create_support_ticket tool body: the rendered
confirmation carrying the minted ticket identifier, the issue text, the
given priority, and the fixed status Open. -/
def create_support_ticket (hash : String → Int) (issue : String) (priority : String) : String :=
  "Support ticket created: " ++ ticket_id hash issue ++ "\nIssue: " ++ issue ++
    "\nPriority: " ++ priority ++ "\nStatus: Open"

/-- The create_support_ticket tool with its declared default priority
of medium. -/
def create_support_ticket_default (hash : String → Int) (issue : String) : String :=
  create_support_ticket hash issue "medium"

/-- User-facing apology produced by the except branch of
process_message, carrying the text of the caught exception. -/
def errorApology (e : String) : String :=
  "I apologize, but I encountered an error while processing your request. Please try again or contact human support if the issue persists. Error: " ++ e

/-- Embedding of CustomerSupportAgent.process_message. The user message
is first appended to memory by the explicit add_user_message call. The
agent executor (modelled by `invoke`, which returns the output string
or raises) carries the same ConversationBufferMemory, so on success it
saves the exchange a second time (HumanMessage then AIMessage) before
process_message appends the AI answer once more explicitly. On any
exception the except branch builds the apology, appends it as an AI
message, and returns it instead of raising. -/
def process_message (invoke : String → Except String String)
    (memory : List Message) (user_message : String) : String × List Message :=
  let memory1 := memory ++ [Message.user user_message]
  match invoke user_message with
  | Except.ok output =>
    let memory2 := memory1 ++ [Message.user user_message, Message.ai output]
    (output, memory2 ++ [Message.ai output])
  | Except.error e =>
    let error_response := errorApology e
    (error_response, memory1 ++ [Message.ai error_response])

/-- Embedding of CustomerSupportAgent.get_conversation_history: the
messages currently held in the ConversationBufferMemory. -/
def get_conversation_history (memory : List Message) : List Message :=
  memory

/-- Introspection record returned by get_agent_status (the temperature
and token-limit fields just echo configuration and are omitted). -/
structure AgentStatus where
  model : String
  memoryLength : Nat
  toolsAvailable : Nat
  deriving DecidableEq

/-- Embedding of CustomerSupportAgent.get_agent_status: the configured
model name, the length of the chat memory message list, and the number
of registered tools (five). -/
def get_agent_status (model : String) (memory : List Message) : AgentStatus :=
  ⟨model, memory.length, 5⟩

end CustomerSupportAgent

/-! Helper lemmas shared by the claim theorems. -/

/-- A search answer never holds more than k chunk texts. -/
theorem kb_search_length_le (score : String → Document → Nat) (failure : Option String)
    (st : KBState) (query : String) (k : Nat) :
    (KnowledgeBaseManager.search score failure st query k).length ≤ k := by
  cases failure with
  | some e => simp [KnowledgeBaseManager.search, similarity_search]
  | none =>
    simp only [KnowledgeBaseManager.search, similarity_search, List.length_map,
      List.length_take]
    omega

/-- When the underlying store raises, search degrades to the empty
list. -/
theorem kb_search_failure (score : String → Document → Nat) (e : String)
    (st : KBState) (query : String) (k : Nat) :
    KnowledgeBaseManager.search score (some e) st query k = [] :=
  rfl

/-- Search over an empty collection yields the empty list, whatever the
query, the fan-out, and the store's failure behaviour. -/
theorem kb_search_empty_state (score : String → Document → Nat) (failure : Option String)
    (query : String) (k : Nat) :
    KnowledgeBaseManager.search score failure ⟨[]⟩ query k = [] := by
  cases failure with
  | some e => rfl
  | none => simp [KnowledgeBaseManager.search, similarity_search, rankDocs]

/-- C1: For every user message, if any error is raised while processing
the turn (model call failure, tool exception, malformed model output),
process_message catches it, returns the apology string instead of
raising, and that apology string is appended to Session Memory so that
it is the last entry of the history returned by
get_conversation_history. -/
theorem c1_process_message_error_returns_apology
    (invoke : String → Except String String) (memory : List Message)
    (user_message e : String) (h : invoke user_message = Except.error e) :
    (CustomerSupportAgent.process_message invoke memory user_message).fst
      = CustomerSupportAgent.errorApology e
    ∧ CustomerSupportAgent.get_conversation_history
        (CustomerSupportAgent.process_message invoke memory user_message).snd
      = memory ++ [Message.user user_message,
          Message.ai (CustomerSupportAgent.errorApology e)]
    ∧ (CustomerSupportAgent.get_conversation_history
        (CustomerSupportAgent.process_message invoke memory user_message).snd).getLast?
      = some (Message.ai (CustomerSupportAgent.errorApology e)) := by
  unfold CustomerSupportAgent.process_message
  rw [h]
  refine ⟨rfl, by simp [CustomerSupportAgent.get_conversation_history], ?_⟩
  show ((memory ++ [Message.user user_message]) ++
      [Message.ai (CustomerSupportAgent.errorApology e)]).getLast? = _
  exact List.getLast?_concat _

/-- Closed instance of c1: a turn whose model call raises returns the
apology and leaves it as the last history entry. -/
theorem c1_process_message_error_returns_apology_witness :
    (CustomerSupportAgent.process_message
        (fun _ => Except.error "model unreachable") [] "Hello").fst
      = CustomerSupportAgent.errorApology "model unreachable"
    ∧ (CustomerSupportAgent.get_conversation_history
        (CustomerSupportAgent.process_message
          (fun _ => Except.error "model unreachable") [] "Hello").snd).getLast?
      = some (Message.ai (CustomerSupportAgent.errorApology "model unreachable")) :=
  ⟨(c1_process_message_error_returns_apology _ [] "Hello" "model unreachable" rfl).1,
   (c1_process_message_error_returns_apology _ [] "Hello" "model unreachable" rfl).2.2⟩

/-- C9: On every successful turn the user message is written to Session
Memory twice (once explicitly by process_message, once by the
executor's attached ConversationBufferMemory) and the AI answer is
written twice, so memory grows by four messages and the memory_length
reported by get_agent_status counts the duplicates. -/
theorem c9_process_message_double_write
    (invoke : String → Except String String) (memory : List Message)
    (model user_message output : String) (h : invoke user_message = Except.ok output) :
    CustomerSupportAgent.process_message invoke memory user_message
      = (output, memory ++ [Message.user user_message, Message.user user_message,
          Message.ai output, Message.ai output])
    ∧ (CustomerSupportAgent.get_agent_status model
        (CustomerSupportAgent.process_message invoke memory user_message).snd).memoryLength
      = (CustomerSupportAgent.get_agent_status model memory).memoryLength + 4 := by
  unfold CustomerSupportAgent.process_message
  rw [h]
  refine ⟨by simp, ?_⟩
  simp [CustomerSupportAgent.get_agent_status]

/-- Closed instance of c9: a successful turn appends the user message
twice and the answer twice. -/
theorem c9_process_message_double_write_witness :
    CustomerSupportAgent.process_message (fun _ => Except.ok "Answer") [] "Hi"
      = ("Answer", [Message.user "Hi", Message.user "Hi",
          Message.ai "Answer", Message.ai "Answer"]) :=
  (c9_process_message_double_write (fun _ => Except.ok "Answer") []
    "gemini-1.5-flash" "Hi" "Answer" rfl).1

/-- C3: For every query string and every k, search returns an ordered
sequence of chunk texts of length at most k, and on any retrieval
failure of the underlying store it returns the empty sequence rather
than raising. -/
theorem c3_search_bounded_and_degrades
    (score : String → Document → Nat) (failure : Option String)
    (st : KBState) (query : String) (k : Nat) :
    (KnowledgeBaseManager.search score failure st query k).length ≤ k
    ∧ (∀ e, KnowledgeBaseManager.search score (some e) st query k = []) :=
  ⟨kb_search_length_le score failure st query k,
   fun e => kb_search_failure score e st query k⟩

/-- C4: clear_knowledge_base empties the Collection and returns true;
it is idempotent (a repeated call on the already-empty store still
returns true), and afterwards get_collection_info reports a chunk count
of 0 and any subsequent search returns the empty sequence. -/
theorem c4_clear_knowledge_base_idempotent_empty
    (score : String → Document → Nat) (failure : Option String)
    (st : KBState) (query : String) (k : Nat) (hasCollection : Bool) (dir : String) :
    (KnowledgeBaseManager.clear_knowledge_base true st).fst = true
    ∧ (KnowledgeBaseManager.clear_knowledge_base true st).snd = ⟨[]⟩
    ∧ (KnowledgeBaseManager.clear_knowledge_base true
        (KnowledgeBaseManager.clear_knowledge_base true st).snd).fst = true
    ∧ (KnowledgeBaseManager.get_collection_info hasCollection dir
        (KnowledgeBaseManager.clear_knowledge_base true st).snd).fst = 0
    ∧ KnowledgeBaseManager.search score failure
        (KnowledgeBaseManager.clear_knowledge_base true st).snd query k = [] := by
  refine ⟨rfl, rfl, rfl, ?_, ?_⟩
  · cases hasCollection <;> rfl
  · exact kb_search_empty_state score failure query k

/-- C2: add_documents with a working store returns true exactly when at
least one chunk was accumulated; the empty batch returns false; a
missing path is skipped while the remaining paths are still processed,
so a batch of one chunk-producing path and one missing path returns
true. -/
theorem c2_add_documents_true_iff_chunks
    (fs : FileSystem) (split : List Document → Except String (List Document))
    (st : KBState) (file_paths : List String) (good bad : String)
    (hbad : fs.pathExists bad = false) :
    ((KnowledgeBaseManager.add_documents fs split true st file_paths).fst = true
      ↔ KnowledgeBaseManager.collect_chunks fs split file_paths ≠ [])
    ∧ (KnowledgeBaseManager.add_documents fs split true st []).fst = false
    ∧ KnowledgeBaseManager.collect_chunks fs split [good, bad]
        = KnowledgeBaseManager.collect_chunks fs split [good]
    ∧ (KnowledgeBaseManager.collect_chunks fs split [good] ≠ []
        → (KnowledgeBaseManager.add_documents fs split true st [good, bad]).fst = true) := by
  have key : KnowledgeBaseManager.collect_chunks fs split [good, bad]
      = KnowledgeBaseManager.collect_chunks fs split [good] := by
    simp [KnowledgeBaseManager.collect_chunks, hbad]
  have iff1 : ∀ ps, ((KnowledgeBaseManager.add_documents fs split true st ps).fst = true
      ↔ KnowledgeBaseManager.collect_chunks fs split ps ≠ []) := by
    intro ps
    unfold KnowledgeBaseManager.add_documents
    by_cases hc : KnowledgeBaseManager.collect_chunks fs split ps = [] <;> simp [hc]
  refine ⟨iff1 file_paths, rfl, key, fun hne => ?_⟩
  exact (iff1 [good, bad]).mpr (by rw [key]; exact hne)

/-- Closed instance of c2: with one loadable text file and one missing
path, ingest of the pair returns true while ingest of the empty batch
returns false. -/
theorem c2_add_documents_true_iff_chunks_witness :
    (KnowledgeBaseManager.add_documents
        ⟨fun p => p == "faq.txt", fun p => Except.ok [⟨"How to reset a password.", p⟩]⟩
        (fun ds => Except.ok ds) true ⟨[]⟩ ["faq.txt", "missing.txt"]).fst = true
    ∧ (KnowledgeBaseManager.add_documents
        ⟨fun p => p == "faq.txt", fun p => Except.ok [⟨"How to reset a password.", p⟩]⟩
        (fun ds => Except.ok ds) true ⟨[]⟩ []).fst = false :=
  ⟨(c2_add_documents_true_iff_chunks
      ⟨fun p => p == "faq.txt", fun p => Except.ok [⟨"How to reset a password.", p⟩]⟩
      (fun ds => Except.ok ds) ⟨[]⟩ ["faq.txt", "missing.txt"] "faq.txt" "missing.txt"
      rfl).2.2.2 (by decide),
   (c2_add_documents_true_iff_chunks
      ⟨fun p => p == "faq.txt", fun p => Except.ok [⟨"How to reset a password.", p⟩]⟩
      (fun ds => Except.ok ds) ⟨[]⟩ ["faq.txt", "missing.txt"] "faq.txt" "missing.txt"
      rfl).2.1⟩

/-- C5: For every query the search_knowledge_base tool returns either
the concatenation of the up-to-two retrieved chunk texts or the
explicit sentinel string when retrieval yields no results, and a turn
whose query matches no ingested content still completes with a final
answer rather than crashing. -/
theorem c5_search_knowledge_base_tool_sentinel
    (score : String → Document → Nat) (failure : Option String)
    (st : KBState) (query : String) :
    (KnowledgeBaseManager.search score failure st query 2).length ≤ 2
    ∧ (KnowledgeBaseManager.search score failure st query 2 = []
        → CustomerSupportAgent.search_knowledge_base score failure st query
          = "No relevant information found in the knowledge base.")
    ∧ (KnowledgeBaseManager.search score failure st query 2 ≠ []
        → CustomerSupportAgent.search_knowledge_base score failure st query
          = "Found relevant information:\n" ++ String.intercalate "\n\n"
              (KnowledgeBaseManager.search score failure st query 2))
    ∧ (∀ memory, (CustomerSupportAgent.process_message
        (fun _ => Except.ok (CustomerSupportAgent.search_knowledge_base score failure st query))
        memory query).fst
        = CustomerSupportAgent.search_knowledge_base score failure st query) := by
  refine ⟨kb_search_length_le score failure st query 2, fun h => ?_, fun h => ?_, fun memory => rfl⟩
  · simp [CustomerSupportAgent.search_knowledge_base, h]
  · simp [CustomerSupportAgent.search_knowledge_base, h]

/-- Closed instance of c5: against an empty collection the tool answers
with the sentinel string. -/
theorem c5_search_knowledge_base_tool_sentinel_witness :
    CustomerSupportAgent.search_knowledge_base (fun _ _ => 0) none ⟨[]⟩ "refund policy"
      = "No relevant information found in the knowledge base." :=
  (c5_search_knowledge_base_tool_sentinel (fun _ _ => 0) none ⟨[]⟩ "refund policy").2.1
    (kb_search_empty_state (fun _ _ => 0) none "refund policy" 2)

/-- C6: create_support_ticket returns the rendered confirmation whose
ticket identifier is derived from the hash of the issue text reduced
modulo 10000 — hence within [0, 10000) and identical across calls with
the same issue text — together with the fixed status Open and the given
priority; the default priority is medium. -/
theorem c6_create_support_ticket_deterministic
    (hash : String → Int) (issue priority : String) :
    CustomerSupportAgent.create_support_ticket hash issue priority
      = "Support ticket created: " ++ CustomerSupportAgent.ticket_id hash issue ++
          "\nIssue: " ++ issue ++ "\nPriority: " ++ priority ++ "\nStatus: Open"
    ∧ CustomerSupportAgent.ticket_id hash issue
      = "TKT-" ++ CustomerSupportAgent.format04d (hash issue % 10000)
    ∧ 0 ≤ hash issue % 10000
    ∧ hash issue % 10000 < 10000
    ∧ CustomerSupportAgent.create_support_ticket_default hash issue
      = CustomerSupportAgent.create_support_ticket hash issue "medium" :=
  ⟨rfl, rfl,
   Int.emod_nonneg (hash issue) (by norm_num),
   Int.emod_lt_of_pos (hash issue) (by norm_num),
   rfl⟩

/-- A file with an unsupported extension loads as the empty document
list (the ValueError it raises is caught inside load_document). -/
theorem load_document_unsupported (fs : FileSystem) (file_path : String)
    (h : ¬ (strToLower (splitextExt file_path) = ".txt"
        ∨ strToLower (splitextExt file_path) = ".pdf"
        ∨ strToLower (splitextExt file_path) = ".csv"
        ∨ strToLower (splitextExt file_path) = ".md")) :
    KnowledgeBaseManager.load_document fs file_path = [] := by
  simp [KnowledgeBaseManager.load_document, h]

/-- Removing a path that loads no documents from anywhere inside a
batch leaves the accumulated chunk list unchanged. -/
theorem collect_chunks_skip (fs : FileSystem)
    (split : List Document → Except String (List Document)) (file_path : String)
    (hload : KnowledgeBaseManager.load_document fs file_path = [])
    (ps qs : List String) :
    KnowledgeBaseManager.collect_chunks fs split (ps ++ file_path :: qs)
      = KnowledgeBaseManager.collect_chunks fs split (ps ++ qs) := by
  induction ps with
  | nil =>
    by_cases hex : fs.pathExists file_path <;>
      simp [KnowledgeBaseManager.collect_chunks, hex, hload]
  | cons p ps ih =>
    simp only [List.cons_append, KnowledgeBaseManager.collect_chunks, List.append_eq]
    rw [ih]

/-- C7: In every ingest batch, a file whose extension is not one of
.txt, .pdf, .csv, .md contributes no chunks, and its presence anywhere
in the batch does not change what the other files contribute. -/
theorem c7_unsupported_extension_isolated
    (fs : FileSystem) (split : List Document → Except String (List Document))
    (file_path : String)
    (h : ¬ (strToLower (splitextExt file_path) = ".txt"
        ∨ strToLower (splitextExt file_path) = ".pdf"
        ∨ strToLower (splitextExt file_path) = ".csv"
        ∨ strToLower (splitextExt file_path) = ".md")) :
    KnowledgeBaseManager.load_document fs file_path = []
    ∧ ∀ ps qs, KnowledgeBaseManager.collect_chunks fs split (ps ++ file_path :: qs)
        = KnowledgeBaseManager.collect_chunks fs split (ps ++ qs) :=
  ⟨load_document_unsupported fs file_path h,
   fun ps qs => collect_chunks_skip fs split file_path
     (load_document_unsupported fs file_path h) ps qs⟩

/-- Closed instance of c7: an executable file in the middle of a batch
loads nothing and leaves the contribution of the surrounding text files
unchanged. -/
theorem c7_unsupported_extension_isolated_witness :
    KnowledgeBaseManager.load_document
      ⟨fun _ => true, fun p => Except.ok [⟨"payload", p⟩]⟩ "setup.exe" = []
    ∧ KnowledgeBaseManager.collect_chunks
        ⟨fun _ => true, fun p => Except.ok [⟨"payload", p⟩]⟩
        (fun ds => Except.ok ds) (["a.txt"] ++ "setup.exe" :: ["b.txt"])
      = KnowledgeBaseManager.collect_chunks
        ⟨fun _ => true, fun p => Except.ok [⟨"payload", p⟩]⟩
        (fun ds => Except.ok ds) (["a.txt"] ++ ["b.txt"]) :=
  ⟨(c7_unsupported_extension_isolated
      ⟨fun _ => true, fun p => Except.ok [⟨"payload", p⟩]⟩
      (fun ds => Except.ok ds) "setup.exe" (by decide)).1,
   (c7_unsupported_extension_isolated
      ⟨fun _ => true, fun p => Except.ok [⟨"payload", p⟩]⟩
      (fun ds => Except.ok ds) "setup.exe" (by decide)).2 ["a.txt"] ["b.txt"]⟩

/-- Every window emitted with chunk size 500 and step 400 has at most
500 characters, provided the fuel covers the text length. -/
theorem windowChunks_length_le (fuel : Nat) (cs : List Char)
    (h : cs.length ≤ fuel * 400 + 500) :
    ∀ c ∈ KnowledgeBaseManager.windowChunks 500 400 fuel cs, c.length ≤ 500 := by
  induction fuel generalizing cs with
  | zero =>
    intro c hc
    simp only [KnowledgeBaseManager.windowChunks, List.mem_singleton] at hc
    subst hc
    omega
  | succ fuel ih =>
    intro c hc
    by_cases hs : cs.length ≤ 500
    · simp only [KnowledgeBaseManager.windowChunks, if_pos hs, List.mem_singleton] at hc
      subst hc
      exact hs
    · simp only [KnowledgeBaseManager.windowChunks, if_neg hs, List.mem_cons] at hc
      rcases hc with hc | hc
      · subst hc
        simp only [List.length_take]
        omega
      · refine ih (cs.drop 400) ?_ c hc
        simp only [List.length_drop]
        omega

/-- Every chunk of split_text at window 500 and overlap 100 has at most
500 characters. -/
theorem split_text_chunk_le (text : String) :
    ∀ c ∈ KnowledgeBaseManager.split_text 500 100 text, c.length ≤ 500 := by
  intro c hc
  unfold KnowledgeBaseManager.split_text at hc
  by_cases he : text.toList = []
  · rw [if_pos he] at hc
    exact absurd hc (List.not_mem_nil c)
  · rw [if_neg he] at hc
    simp only [List.mem_map] at hc
    obtain ⟨w, hw, hwc⟩ := hc
    have hb : w.length ≤ 500 := by
      refine windowChunks_length_le text.toList.length text.toList ?_ w hw
      omega
    subst hwc
    exact hb

/-- C8: Chunking is deterministic — splitting any document list twice
with the fixed window length 500 and fixed overlap 100 yields identical
chunk sequences — and every chunk produced stays within the window
length. -/
theorem c8_chunking_deterministic (documents : List Document) :
    KnowledgeBaseManager.split_documents documents
      = KnowledgeBaseManager.split_documents documents
    ∧ ∀ c ∈ KnowledgeBaseManager.split_documents documents,
        c.page_content.length ≤ 500 := by
  refine ⟨rfl, fun c hc => ?_⟩
  unfold KnowledgeBaseManager.split_documents at hc
  simp only [List.mem_flatten, List.mem_map] at hc
  obtain ⟨l, ⟨d, hd, hl⟩, hcl⟩ := hc
  subst hl
  simp only [List.mem_map] at hcl
  obtain ⟨t, ht, htc⟩ := hcl
  subst htc
  exact split_text_chunk_le d.page_content t ht

/-- Closed instance of c8: a one-document batch splits into the same
bounded chunk both times. -/
theorem c8_chunking_deterministic_witness :
    (⟨"short text", "s.txt"⟩ : Document).page_content.length ≤ 500 :=
  (c8_chunking_deterministic [⟨"short text", "s.txt"⟩]).2
    ⟨"short text", "s.txt"⟩ (by decide)

/-- C10: load_document and process_documents are total at their
boundary: an unsupported extension, a loader failure, or a splitter
failure each yield the empty list instead of an exception escaping into
add_documents. -/
theorem c10_loader_and_splitter_total
    (fs : FileSystem) (file_path : String)
    (split : List Document → Except String (List Document)) (documents : List Document) :
    (¬ (strToLower (splitextExt file_path) = ".txt"
        ∨ strToLower (splitextExt file_path) = ".pdf"
        ∨ strToLower (splitextExt file_path) = ".csv"
        ∨ strToLower (splitextExt file_path) = ".md")
      → KnowledgeBaseManager.load_document fs file_path = [])
    ∧ (∀ e, fs.parse file_path = Except.error e
        → KnowledgeBaseManager.load_document fs file_path = [])
    ∧ (∀ e, split documents = Except.error e
        → KnowledgeBaseManager.process_documents split documents = []) := by
  refine ⟨fun h => load_document_unsupported fs file_path h, fun e he => ?_, fun e he => ?_⟩
  · unfold KnowledgeBaseManager.load_document
    rw [he]
    simp
  · unfold KnowledgeBaseManager.process_documents
    rw [he]

/-- Closed instance of c10: a loader that raises on a supported file
and a splitter that raises both degrade to the empty list. -/
theorem c10_loader_and_splitter_total_witness :
    KnowledgeBaseManager.load_document
      ⟨fun _ => true, fun _ => Except.error "corrupt PDF"⟩ "report.pdf" = []
    ∧ KnowledgeBaseManager.process_documents
        (fun _ => Except.error "splitter failure") [⟨"text", "report.pdf"⟩] = [] :=
  ⟨(c10_loader_and_splitter_total
      ⟨fun _ => true, fun _ => Except.error "corrupt PDF"⟩ "report.pdf"
      (fun ds => Except.ok ds) []).2.1 "corrupt PDF" rfl,
   (c10_loader_and_splitter_total
      ⟨fun _ => true, fun _ => Except.error "corrupt PDF"⟩ "report.pdf"
      (fun _ => Except.error "splitter failure") [⟨"text", "report.pdf"⟩]).2.2
      "splitter failure" rfl⟩
